import Mathlib

/-!
# Verification of the Rebrickable data-update rollup procedure

Shallow embedding of the rollup part of `execute_sql_files` in
`update_data.py`: the database state is modelled as lists of rows, each SQL
statement of the procedure as a function on that state, and the whole
procedure as a function returning `Except Unit DB` (an uncaught
`mysql.connector.Error` aborts the run).

Conventions of the embedding:
* MySQL `timestamp` values are modelled as `Int` seconds; `int` columns as
  `Int` (`collection_count`) or `Nat` (`theme_id` keys); `varchar` keys as
  `String`.
* Surrogate `AUTO_INCREMENT` ids are not modelled: no statement of the
  script reads them, rows are kept as list elements with multiplicity.
* `ORDER BY ... DESC` is modelled by a stable insertion sort on a total
  relation; MySQL's tie order among equal keys is implementation-defined,
  and no theorem below depends on the tie order.
* A single-statement `mysql.connector.Error` is modelled by a Boolean
  failure flag per statement (or per load command); a failing statement
  leaves the state unchanged, and control continues or aborts exactly as
  the Python `try/except` structure dictates.
-/

namespace RebrickableUpdate

/-- A row of the base `sets` table: identifier, category (`theme_id`),
release year.  Other columns are never read by the rollup statements. -/
structure SetRow where
  set_num : String
  theme_id : Nat
  year : Nat
deriving DecidableEq

/-- A row of the collection-tracking table `collection` (site-managed,
read-only for this script): which set, and how many copies are owned. -/
structure CollectionRow where
  set_num : String
  collection_set_quantity : Int
deriving DecidableEq

/-- A row of the derived table `recent_set_additions`
(surrogate id omitted, see module comment). -/
structure RecentRow where
  set_num : String
  theme_id : Nat
  added_date : Int
deriving DecidableEq

/-- A row of the derived table `popular_themes`
(surrogate id omitted, see module comment). -/
structure PopularRow where
  theme_id : Nat
  collection_count : Int
  snapshot_date : Int
deriving DecidableEq

/-- The database state: the two base tables (`themes`, `sets`), the
collection-tracking table, and the two derived tables. -/
structure DB where
  themes : List Nat
  sets : List SetRow
  collection : List CollectionRow
  recent_set_additions : List RecentRow
  popular_themes : List PopularRow
deriving DecidableEq

/-- The list of identifiers of a `sets` table
(`SELECT set_num FROM sets`). -/
def setIds (sets : List SetRow) : List String :=
  sets.map (fun s => s.set_num)

/-- The sets of the refreshed table that are absent from the pre-reload
snapshot `existing` — the `LEFT JOIN existing_sets e ... WHERE e.set_num
IS NULL` pattern used by both `recent_set_additions` statements. -/
def newSets (sets : List SetRow) (existing : List String) : List SetRow :=
  sets.filter (fun s => !(existing.contains s.set_num))

/-- `NewItemIds`: identifiers present in the refreshed table but absent
from the pre-reload snapshot. -/
def newItemIds (sets : List SetRow) (existing : List String) : List String :=
  setIds (newSets sets existing)

/-- Does theme `t` have at least one new set?  This is the `EXISTS`
subquery of the `DELETE` statement (lines 135-143). -/
def themeHasNewSet (sets : List SetRow) (existing : List String) (t : Nat) : Bool :=
  (newSets sets existing).any (fun s => s.theme_id == t)

/-- Lines 135-144: `DELETE r FROM recent_set_additions r WHERE EXISTS
(SELECT 1 FROM sets s LEFT JOIN existing_sets e ON s.set_num = e.set_num
WHERE e.set_num IS NULL AND s.theme_id = r.theme_id)`. -/
def recentDelete (db : DB) (existing : List String) : DB :=
  let kept := db.recent_set_additions.filter
    (fun r => !(themeHasNewSet db.sets existing r.theme_id))
  { db with recent_set_additions := kept }

/-- The correlated subquery `SELECT COUNT(*) FROM recent_set_additions r2
WHERE r2.theme_id = s.theme_id` (lines 152-156). -/
def recentCount (recent : List RecentRow) (t : Nat) : Nat :=
  (recent.filter (fun r => r.theme_id == t)).length

/-- Code-point comparison of strings as lists of characters, modelling the
collation order MySQL uses for `ORDER BY s.set_num DESC`. -/
def charListLt : List Char → List Char → Bool
  | [], [] => false
  | [], _ :: _ => true
  | _ :: _, [] => false
  | a :: as, b :: bs =>
    Nat.blt a.toNat b.toNat || (a.toNat == b.toNat && charListLt as bs)

/-- String comparison used for the `set_num` tie-break. -/
def setNumLt (a b : String) : Bool :=
  charListLt a.data b.data

/-- `a` comes no later than `b` under `ORDER BY year DESC, set_num DESC`
(line 157): larger year first, ties broken by descending identifier. -/
def recentBefore (a b : SetRow) : Bool :=
  Nat.blt b.year a.year || (a.year == b.year && !(setNumLt a.set_num b.set_num))

/-- Propositional form of `recentBefore`, for `List.insertionSort`. -/
def RecentLE (a b : SetRow) : Prop :=
  recentBefore a b = true

instance : DecidableRel RecentLE :=
  fun a b => inferInstanceAs (Decidable (recentBefore a b = true))

/-- Lines 146-159: `INSERT INTO recent_set_additions (set_num, theme_id)
SELECT s.set_num, s.theme_id FROM sets s LEFT JOIN existing_sets e ON
s.set_num = e.set_num WHERE e.set_num IS NULL AND (SELECT COUNT(*) FROM
recent_set_additions r2 WHERE r2.theme_id = s.theme_id) < 3 ORDER BY
s.year DESC, s.set_num DESC`.

MySQL materializes an `INSERT ... SELECT` whose `SELECT` part reads the
target table (it "creates an internal temporary table to hold the rows
from the SELECT and then inserts those rows"), and the `ORDER BY` forces
the whole `SELECT` to be evaluated before the first row is inserted:
the correlated `COUNT` subquery therefore sees the state of
`recent_set_additions` as it was before this statement inserted anything,
not a running count. -/
def recentInsert (db : DB) (existing : List String) (now : Int) : DB :=
  let selected := (newSets db.sets existing).filter
    (fun s => decide (recentCount db.recent_set_additions s.theme_id < 3))
  let inserted := (List.insertionSort RecentLE selected).map
    (fun s => { set_num := s.set_num, theme_id := s.theme_id, added_date := now : RecentRow })
  { db with recent_set_additions := db.recent_set_additions ++ inserted }

/-- `SUM(c.collection_set_quantity)` over the join `themes t JOIN sets s ON
s.theme_id = t.id JOIN collection c ON c.set_num = s.set_num` restricted
to theme `t` (lines 166-172). -/
def themeCollectionCount (db : DB) (t : Nat) : Int :=
  ((db.sets.filter (fun s => s.theme_id == t)).map (fun s =>
    ((db.collection.filter (fun c => c.set_num == s.set_num)).map
      (fun c => c.collection_set_quantity)).sum)).sum

/-- Theme `t` contributes a group to the `GROUP BY t.id` at all: the inner
joins keep `t` only if some set of `t` has some collection row. -/
def themeHasCollectionRow (db : DB) (t : Nat) : Bool :=
  db.sets.any (fun s =>
    s.theme_id == t && db.collection.any (fun c => c.set_num == s.set_num))

/-- Order of `ORDER BY collection_count DESC` on `(theme_id, count)`
aggregate pairs: larger count first; ties in implementation-defined
(here: stable) order. -/
def PopLE (a b : Nat × Int) : Prop :=
  b.2 ≤ a.2

instance : DecidableRel PopLE :=
  fun a b => inferInstanceAs (Decidable (b.2 ≤ a.2))

instance : IsTotal (Nat × Int) PopLE :=
  ⟨fun a b => le_total b.2 a.2⟩

instance : IsTrans (Nat × Int) PopLE :=
  ⟨fun _ _ _ hab hbc => le_trans hbc hab⟩

/-- The `GROUP BY t.id ... ORDER BY collection_count DESC` result list of
the `popular_themes` insert (lines 164-175), before `LIMIT 5`. -/
def popularRanking (db : DB) : List (Nat × Int) :=
  List.insertionSort PopLE
    ((db.themes.filter (fun t => themeHasCollectionRow db t)).map
      (fun t => (t, themeCollectionCount db t)))

/-- `LIMIT 5` applied to the ranked aggregates. -/
def popularTop5 (db : DB) : List (Nat × Int) :=
  (popularRanking db).take 5

/-- Lines 164-176: `INSERT INTO popular_themes (theme_id,
collection_count) SELECT ... LIMIT 5`; every row of the batch gets the
statement's `CURRENT_TIMESTAMP` default `now` as `snapshot_date`. -/
def popularInsertStep (db : DB) (now : Int) : DB :=
  let inserted := (popularTop5 db).map
    (fun p => { theme_id := p.1, collection_count := p.2, snapshot_date := now : PopularRow })
  { db with popular_themes := db.popular_themes ++ inserted }

/-- `INTERVAL 12 WEEK` in seconds. -/
def twelveWeeks : Int :=
  12 * 7 * 24 * 60 * 60

/-- Lines 179-183: `DELETE FROM popular_themes WHERE snapshot_date <
DATE_SUB(NOW(), INTERVAL 12 WEEK)`. -/
def popularPrune (db : DB) (now : Int) : DB :=
  let kept := db.popular_themes.filter
    (fun r => !(decide (r.snapshot_date < now - twelveWeeks)))
  { db with popular_themes := kept }

/-- One command of a generated `*_inserts.sql` file (lines 116-132):
an insert batch into `themes`, into `sets`, or into one of the tables the
rollup never reads (`minifigs`, `inventories`, ...). -/
inductive LoadCmd where
  | addThemes (ids : List Nat)
  | addSets (rows : List SetRow)
  | other

/-- Effect of one successfully executed load command.  An `addSets` batch
containing a row whose `theme_id` is not in `themes` violates the base
table's foreign key: the statement raises and (caught by the per-command
`try/except`) leaves the state unchanged. -/
def applyCmd (db : DB) : LoadCmd → DB
  | .addThemes ids => { db with themes := db.themes ++ ids }
  | .addSets rows =>
    if rows.all (fun s => db.themes.contains s.theme_id) then
      { db with sets := db.sets ++ rows }
    else db
  | .other => db

/-- Lines 116-132: execute the generated insert commands in file order;
a command paired with `true` fails, is logged, and is skipped
(`except ... continue`), and the loop continues. -/
def loadData (db : DB) (cmds : List (LoadCmd × Bool)) : DB :=
  cmds.foldl (fun d c => if c.2 then d else applyCmd d c.1) db

/-- Which rollup statements raise a `mysql.connector.Error` this run. -/
structure FailureOracle where
  recentDeleteFail : Bool
  recentInsertFail : Bool
  popularInsertFail : Bool
  popularPruneFail : Bool
deriving DecidableEq

/-- The run in which every rollup statement succeeds. -/
def noFail : FailureOracle :=
  ⟨false, false, false, false⟩

/-- Lines 163-186: the `popular_themes` insert and the 12-week prune sit
in one `try/except mysql.connector.Error` block; the first statement of
the block that raises ends the block (any statement after it in the block
is skipped), the error is logged, and the run continues. -/
def popularBlock (db : DB) (now : Int) (f : FailureOracle) : DB :=
  if f.popularInsertFail then db
  else
    let d := popularInsertStep db now
    if f.popularPruneFail then d else popularPrune d now

/-- Lines 135-189 after the data load: the two `recent_set_additions`
statements execute with no surrounding `try/except`, so a failure there
propagates out of `execute_sql_files` (the outer handler at line 193 logs
and re-raises); then the guarded `popular_themes` block runs. -/
def rollup (db : DB) (existing : List String) (now : Int) (f : FailureOracle) :
    Except Unit DB :=
  if f.recentDeleteFail then .error () else
  let db1 := recentDelete db existing
  if f.recentInsertFail then .error () else
  .ok (popularBlock (recentInsert db1 existing now) now f)

/-- The whole of `execute_sql_files` after the schema checks: capture the
`existing_sets` snapshot from the current `sets` table (line 110), then
load the generated files (lines 116-132), then run the rollup statements
on the refreshed state against that pre-reload snapshot. -/
def run (db : DB) (cmds : List (LoadCmd × Bool)) (now : Int) (f : FailureOracle) :
    Except Unit DB :=
  rollup (loadData db cmds) (setIds db.sets) now f

/-- The state of a successful run, or a fallback for a failed one. -/
def okState (r : Except Unit DB) (dflt : DB) : DB :=
  match r with
  | .ok d => d
  | .error _ => dflt

/-- Referential integrity of the derived `recent_set_additions` table,
as enforced by the `FOREIGN KEY` constraints of its `CREATE TABLE`
(lines 103-104): every row references an existing set and an existing
theme. -/
def recentIntegrity (db : DB) : Prop :=
  ∀ r ∈ db.recent_set_additions, r.set_num ∈ setIds db.sets ∧ r.theme_id ∈ db.themes

/-- Referential integrity of the base `sets` table: every set references
an existing theme. -/
def setsFkOk (db : DB) : Prop :=
  ∀ s ∈ db.sets, s.theme_id ∈ db.themes

instance (db : DB) : Decidable (recentIntegrity db) :=
  inferInstanceAs (Decidable (∀ r ∈ db.recent_set_additions,
    r.set_num ∈ setIds db.sets ∧ r.theme_id ∈ db.themes))

instance (db : DB) : Decidable (setsFkOk db) :=
  inferInstanceAs (Decidable (∀ s ∈ db.sets, s.theme_id ∈ db.themes))

/-- Concrete test state: theme 2 owns one set `"a1"` that is in one
collection, four leftover `recent_set_additions` rows (the per-category
cap violated historically), and one stale `popular_themes` row. -/
def dbA : DB :=
  { themes := [1, 2]
    sets := [⟨"a1", 2, 2019⟩]
    collection := [⟨"a1", 7⟩]
    recent_set_additions := [⟨"a1", 2, 5⟩, ⟨"a1", 2, 6⟩, ⟨"a1", 2, 7⟩, ⟨"a1", 2, 8⟩]
    popular_themes := [⟨2, 7, -10000000⟩] }

/-- Concrete load: a new theme 3, four new sets of theme 1 (newest
first), and one unrelated command that fails and is skipped. -/
def cmdsA : List (LoadCmd × Bool) :=
  [(.addThemes [3], false),
   (.addSets [⟨"s4", 1, 2023⟩, ⟨"s3", 1, 2022⟩, ⟨"s2", 1, 2021⟩, ⟨"s1", 1, 2020⟩], false),
   (.other, true)]

/-- The spec scenario for the popularity ranking: six themes with
aggregate counts 100, 80, 80, 50, 40, 10. -/
def dbP : DB :=
  { themes := [1, 2, 3, 4, 5, 6]
    sets := [⟨"p1", 1, 2020⟩, ⟨"p2", 2, 2020⟩, ⟨"p3", 3, 2020⟩,
             ⟨"p4", 4, 2020⟩, ⟨"p5", 5, 2020⟩, ⟨"p6", 6, 2020⟩]
    collection := [⟨"p1", 100⟩, ⟨"p2", 80⟩, ⟨"p3", 80⟩,
                   ⟨"p4", 50⟩, ⟨"p5", 40⟩, ⟨"p6", 10⟩]
    recent_set_additions := []
    popular_themes := [] }

/-! ## Frame and preservation lemmas -/

theorem applyCmd_recent (db : DB) (c : LoadCmd) :
    (applyCmd db c).recent_set_additions = db.recent_set_additions := by
  cases c with
  | addThemes ids => rfl
  | addSets rows => dsimp only [applyCmd]; split <;> rfl
  | other => rfl

theorem applyCmd_popular (db : DB) (c : LoadCmd) :
    (applyCmd db c).popular_themes = db.popular_themes := by
  cases c with
  | addThemes ids => rfl
  | addSets rows => dsimp only [applyCmd]; split <;> rfl
  | other => rfl

theorem loadData_cons (db : DB) (c : LoadCmd × Bool) (cs : List (LoadCmd × Bool)) :
    loadData db (c :: cs) = loadData (if c.2 then db else applyCmd db c.1) cs := rfl

theorem loadData_recent (cmds : List (LoadCmd × Bool)) (db : DB) :
    (loadData db cmds).recent_set_additions = db.recent_set_additions := by
  induction cmds generalizing db with
  | nil => rfl
  | cons c cs ih =>
    rw [loadData_cons, ih]
    split <;> first | rfl | exact applyCmd_recent db c.1

theorem loadData_popular (cmds : List (LoadCmd × Bool)) (db : DB) :
    (loadData db cmds).popular_themes = db.popular_themes := by
  induction cmds generalizing db with
  | nil => rfl
  | cons c cs ih =>
    rw [loadData_cons, ih]
    split <;> first | rfl | exact applyCmd_popular db c.1

theorem popularBlock_frame (db : DB) (now : Int) (f : FailureOracle) :
    (popularBlock db now f).themes = db.themes ∧
    (popularBlock db now f).sets = db.sets ∧
    (popularBlock db now f).collection = db.collection ∧
    (popularBlock db now f).recent_set_additions = db.recent_set_additions := by
  dsimp only [popularBlock]
  split
  · exact ⟨rfl, rfl, rfl, rfl⟩
  · split <;> exact ⟨rfl, rfl, rfl, rfl⟩

theorem rollup_ok_of (db : DB) (existing : List String) (now : Int) (f : FailureOracle)
    (h1 : f.recentDeleteFail = false) (h2 : f.recentInsertFail = false) :
    rollup db existing now f =
      Except.ok (popularBlock (recentInsert (recentDelete db existing) existing now) now f) := by
  simp [rollup, h1, h2]

theorem rollup_ok_inv (db : DB) (existing : List String) (now : Int) (f : FailureOracle)
    (db2 : DB) (h : rollup db existing now f = Except.ok db2) :
    f.recentDeleteFail = false ∧ f.recentInsertFail = false ∧
      db2 = popularBlock (recentInsert (recentDelete db existing) existing now) now f := by
  cases hf1 : f.recentDeleteFail with
  | true => rw [rollup, hf1] at h; simp at h
  | false =>
    cases hf2 : f.recentInsertFail with
    | true => rw [rollup, hf1, hf2] at h; simp at h
    | false =>
      rw [rollup, hf1, hf2] at h
      simp at h
      exact ⟨rfl, rfl, h.symm⟩

theorem inserted_filter_nil (sets : List SetRow) (ex : List String) (p : SetRow → Bool)
    (now : Int) (t : Nat) (ht : themeHasNewSet sets ex t = false) :
    ((List.insertionSort RecentLE ((newSets sets ex).filter p)).map
        (fun s => (⟨s.set_num, s.theme_id, now⟩ : RecentRow))).filter
      (fun r => r.theme_id == t) = [] := by
  rw [List.filter_eq_nil_iff]
  intro r hrins
  obtain ⟨s, hs, rfl⟩ := List.mem_map.mp hrins
  have hsel := (List.perm_insertionSort RecentLE _).mem_iff.mp hs
  have hnew : s ∈ newSets sets ex := (List.mem_filter.mp hsel).1
  have hhas : themeHasNewSet sets ex s.theme_id = true := by
    dsimp only [themeHasNewSet]
    exact List.any_eq_true.mpr ⟨s, hnew, by simp⟩
  intro hbeq
  have hst : s.theme_id = t := by simpa using hbeq
  rw [hst, ht] at hhas
  exact Bool.false_ne_true hhas

theorem recentDelete_nil (db : DB) (ex : List String) (h : newSets db.sets ex = []) :
    (recentDelete db ex).recent_set_additions = db.recent_set_additions := by
  show db.recent_set_additions.filter _ = _
  apply List.filter_eq_self.mpr
  intro r _
  dsimp only [themeHasNewSet]
  rw [h]
  rfl

theorem recentInsert_nil (db : DB) (ex : List String) (now : Int)
    (h : newSets db.sets ex = []) :
    (recentInsert db ex now).recent_set_additions = db.recent_set_additions := by
  show db.recent_set_additions ++ _ = _
  rw [show (newSets db.sets ex).filter
        (fun s => decide (recentCount db.recent_set_additions s.theme_id < 3)) = [] by
      rw [h]; rfl]
  simp [List.insertionSort]

/-! ## Claim theorems -/

/-- C1: the per-category cap of 3 on `recent_set_additions` is not
enforced by the code.  At the concrete run `run dbA cmdsA 0 noFail`,
theme 1 receives four new sets; the correlated `COUNT` subquery of the
insert (lines 152-156) is evaluated against the pre-insert state of the
table — zero for theme 1 after the delete of lines 135-144 — so the
`< 3` guard passes for all four rows and the re-population step leaves
four rows for theme 1, exceeding the claimed cap of 3. -/
theorem C1_cap_exceeded_at_four_new_sets :
    recentCount (okState (run dbA cmdsA 0 noFail) dbA).recent_set_additions 1 = 4 := by
  decide

/-- C6: the prune of lines 179-183 removes exactly the `popular_themes`
rows whose snapshot timestamp is older than 12 weeks before the current
time: no such row survives it, every other row does, and after a fully
successful run (whose last `popular_themes` statement is the prune) the
table retains no row older than 12 weeks. -/
theorem C6_prune_12_week_retention (db : DB) (cmds : List (LoadCmd × Bool)) (now : Int) :
    (∀ r ∈ (popularPrune db now).popular_themes, ¬(r.snapshot_date < now - twelveWeeks)) ∧
    (∀ r ∈ db.popular_themes, ¬(r.snapshot_date < now - twelveWeeks) →
        r ∈ (popularPrune db now).popular_themes) ∧
    (∀ db2, run db cmds now noFail = Except.ok db2 →
        ∀ r ∈ db2.popular_themes, ¬(r.snapshot_date < now - twelveWeeks)) := by
  have keep : ∀ (d : DB) (r : PopularRow), r ∈ (popularPrune d now).popular_themes →
      ¬(r.snapshot_date < now - twelveWeeks) := by
    intro d r hr
    have h := (List.mem_filter.mp hr).2
    simpa using h
  refine ⟨keep db, ?_, ?_⟩
  · intro r hr h
    exact List.mem_filter.mpr ⟨hr, by simpa using h⟩
  · intro db2 h r hr
    obtain ⟨-, -, rfl⟩ := rollup_ok_inv _ _ _ _ _ h
    have hb : popularBlock (recentInsert (recentDelete (loadData db cmds) (setIds db.sets))
          (setIds db.sets) now) now noFail
        = popularPrune (popularInsertStep (recentInsert (recentDelete (loadData db cmds)
          (setIds db.sets)) (setIds db.sets) now) now) now := rfl
    rw [hb] at hr
    exact keep _ r hr

/-- C6 witness: in the concrete successful run, the surviving
`popular_themes` row is within the 12-week window. -/
theorem C6_witness :
    ¬((⟨2, 7, 0⟩ : PopularRow).snapshot_date < 0 - twelveWeeks) :=
  (C6_prune_12_week_retention dbA cmdsA 0).2.2 (okState (run dbA cmdsA 0 noFail) dbA) rfl
    ⟨2, 7, 0⟩ (by decide)

/-- C7 counterexample: the claim says a failing statement of the rollup
sequence is skipped and the run continues, but a failure of the
`recent_set_additions` insert (lines 146-159, outside any `try/except`)
aborts the whole run. -/
theorem C7_counterexample_insert_failure_aborts :
    (run dbA cmdsA 0 ⟨false, true, false, false⟩).isOk = false := by
  decide

/-- C7 amended: failures of individual generated-file load commands
(lines 125-132) and failures inside the `popular_themes` block (lines
163-186) are logged and skipped and the run continues; only the two
unguarded `recent_set_additions` statements abort the run on failure. -/
theorem C7_amended_guarded_failures_skipped (db : DB) (cmds : List (LoadCmd × Bool))
    (now : Int) (f : FailureOracle)
    (h1 : f.recentDeleteFail = false) (h2 : f.recentInsertFail = false) :
    ∃ db2, run db cmds now f = Except.ok db2 :=
  ⟨_, rollup_ok_of _ _ _ _ h1 h2⟩

/-- C7 witness: a run in which a load command and both `popular_themes`
statements fail still completes. -/
theorem C7_amended_witness :
    ∃ db2, run dbA cmdsA 0 ⟨false, false, true, true⟩ = Except.ok db2 :=
  C7_amended_guarded_failures_skipped dbA cmdsA 0 ⟨false, false, true, true⟩ rfl rfl

/-- C8: the rollup statements mutate only the two derived tables: a
successful rollup leaves `themes`, `sets` (and the collection-tracking
table) exactly as it found them. -/
theorem C8_rollup_mutates_only_derived (db : DB) (existing : List String) (now : Int)
    (f : FailureOracle) (db2 : DB) (h : rollup db existing now f = Except.ok db2) :
    db2.themes = db.themes ∧ db2.sets = db.sets ∧ db2.collection = db.collection := by
  obtain ⟨-, -, rfl⟩ := rollup_ok_inv db existing now f db2 h
  obtain ⟨ht, hs, hc, -⟩ :=
    popularBlock_frame (recentInsert (recentDelete db existing) existing now) now f
  exact ⟨ht.trans rfl, hs.trans rfl, hc.trans rfl⟩

/-- C8 witness: the concrete rollup leaves the base tables of `dbA`
unchanged. -/
theorem C8_witness :
    (okState (rollup dbA (setIds dbA.sets) 0 noFail) dbA).themes = dbA.themes ∧
    (okState (rollup dbA (setIds dbA.sets) 0 noFail) dbA).sets = dbA.sets ∧
    (okState (rollup dbA (setIds dbA.sets) 0 noFail) dbA).collection = dbA.collection :=
  C8_rollup_mutates_only_derived dbA (setIds dbA.sets) 0 noFail _ rfl

/-- C10: if the `popular_themes` insert fails, the 12-week prune — the
next statement of the same guarded block — is skipped for that run, the
run still completes, and every stale `popular_themes` row (older than 12
weeks) survives. -/
theorem C10_insert_failure_skips_prune (db : DB) (cmds : List (LoadCmd × Bool))
    (now : Int) (f : FailureOracle)
    (h1 : f.recentDeleteFail = false) (h2 : f.recentInsertFail = false)
    (h3 : f.popularInsertFail = true) :
    ∃ db2, run db cmds now f = Except.ok db2 ∧
      db2.popular_themes = db.popular_themes ∧
      ∀ r ∈ db.popular_themes, r.snapshot_date < now - twelveWeeks →
        r ∈ db2.popular_themes := by
  have hb : popularBlock (recentInsert (recentDelete (loadData db cmds) (setIds db.sets))
        (setIds db.sets) now) now f
      = recentInsert (recentDelete (loadData db cmds) (setIds db.sets)) (setIds db.sets) now := by
    dsimp only [popularBlock]
    rw [h3]
    simp
  have hpop : (popularBlock (recentInsert (recentDelete (loadData db cmds) (setIds db.sets))
        (setIds db.sets) now) now f).popular_themes = db.popular_themes := by
    rw [hb]
    show (loadData db cmds).popular_themes = db.popular_themes
    exact loadData_popular cmds db
  refine ⟨_, rollup_ok_of _ _ _ _ h1 h2, hpop, ?_⟩
  intro r hr _
  rw [hpop]
  exact hr

/-- C10 witness: in a concrete run whose `popular_themes` insert fails,
the stale snapshot row of `dbA` (timestamp older than 12 weeks) is still
present afterwards. -/
theorem C10_witness :
    ∃ db2, run dbA cmdsA 0 ⟨false, false, true, false⟩ = Except.ok db2 ∧
      db2.popular_themes = dbA.popular_themes ∧
      ∀ r ∈ dbA.popular_themes, r.snapshot_date < 0 - twelveWeeks →
        r ∈ db2.popular_themes :=
  C10_insert_failure_skips_prune dbA cmdsA 0 ⟨false, false, true, false⟩ rfl rfl rfl

/-- C2: the delete of lines 135-144 removes every `recent_set_additions`
row whose theme has at least one new set, and for a theme with no new
sets this run, a successful run leaves that theme's rows exactly as they
were — even when more than 3 of them exist. -/
theorem C2_delete_scope (db : DB) (cmds : List (LoadCmd × Bool)) (now : Int)
    (f : FailureOracle) :
    (∀ r ∈ (recentDelete (loadData db cmds) (setIds db.sets)).recent_set_additions,
        themeHasNewSet (loadData db cmds).sets (setIds db.sets) r.theme_id = false) ∧
    (∀ db2, run db cmds now f = Except.ok db2 →
      ∀ t, themeHasNewSet (loadData db cmds).sets (setIds db.sets) t = false →
        db2.recent_set_additions.filter (fun r => r.theme_id == t)
          = db.recent_set_additions.filter (fun r => r.theme_id == t)) := by
  constructor
  · intro r hr
    have h := (List.mem_filter.mp hr).2
    simpa using h
  · intro db2 h t ht
    obtain ⟨-, -, rfl⟩ := rollup_ok_inv _ _ _ _ _ h
    rw [(popularBlock_frame (recentInsert (recentDelete (loadData db cmds) (setIds db.sets))
        (setIds db.sets) now) now f).2.2.2]
    show (((loadData db cmds).recent_set_additions.filter _) ++ _).filter _ = _
    rw [List.filter_append, List.filter_filter]
    have hA : (loadData db cmds).recent_set_additions.filter
          (fun r => (r.theme_id == t) &&
            !(themeHasNewSet (loadData db cmds).sets (setIds db.sets) r.theme_id))
        = db.recent_set_additions.filter (fun r => r.theme_id == t) := by
      rw [loadData_recent]
      apply List.filter_congr
      intro r _
      cases hrt : (r.theme_id == t) with
      | false => simp
      | true =>
        have hre : r.theme_id = t := by simpa using hrt
        simp [hre, ht]
    have ht2 : themeHasNewSet (recentDelete (loadData db cmds) (setIds db.sets)).sets
        (setIds db.sets) t = false := ht
    rw [hA, inserted_filter_nil _ _ _ _ _ ht2, List.append_nil]

/-- C2 witness: in the concrete run, theme 2 (which has no new sets but
four leftover rows, more than the cap) keeps its rows untouched. -/
theorem C2_witness :
    (okState (run dbA cmdsA 0 noFail) dbA).recent_set_additions.filter
        (fun r => r.theme_id == 2)
      = dbA.recent_set_additions.filter (fun r => r.theme_id == 2) :=
  (C2_delete_scope dbA cmdsA 0 noFail).2 (okState (run dbA cmdsA 0 noFail) dbA) rfl 2
    (by decide)

/-- C3: the `existing_sets` snapshot handed to the rollup statements is
taken from the `sets` table before any load command runs (line 110
precedes the loop of lines 116-132), and the new-item set computed by
the rollup's `LEFT JOIN ... IS NULL` pattern is exactly the set of
identifiers present in the refreshed table and absent from that
snapshot. -/
theorem C3_snapshot_delta (db : DB) (cmds : List (LoadCmd × Bool)) (now : Int)
    (f : FailureOracle) :
    run db cmds now f = rollup (loadData db cmds) (setIds db.sets) now f ∧
    ∀ x, x ∈ newItemIds (loadData db cmds).sets (setIds db.sets) ↔
      (x ∈ setIds (loadData db cmds).sets ∧ x ∉ setIds db.sets) := by
  refine ⟨rfl, fun x => ⟨?_, ?_⟩⟩
  · intro hx
    obtain ⟨s, hs, rfl⟩ := List.mem_map.mp hx
    have h1 := List.mem_filter.mp hs
    refine ⟨List.mem_map.mpr ⟨s, h1.1, rfl⟩, ?_⟩
    intro hmem
    have h2 := h1.2
    rw [show (setIds db.sets).contains s.set_num = true by
        simp [List.contains, List.elem_iff]; exact hmem] at h2
    exact Bool.false_ne_true h2
  · rintro ⟨hx, hnot⟩
    obtain ⟨s, hs, rfl⟩ := List.mem_map.mp hx
    refine List.mem_map.mpr ⟨s, List.mem_filter.mpr ⟨hs, ?_⟩, rfl⟩
    simp [List.contains, List.elem_iff]
    exact hnot

/-- C3 witness: the new set `"s1"` of the concrete run satisfies the
delta characterization. -/
theorem C3_witness :
    "s1" ∈ newItemIds (loadData dbA cmdsA).sets (setIds dbA.sets) ↔
      ("s1" ∈ setIds (loadData dbA cmdsA).sets ∧ "s1" ∉ setIds dbA.sets) :=
  (C3_snapshot_delta dbA cmdsA 0 noFail).2 "s1"

/-- C4: a run in which every identifier of the refreshed `sets` table was
already in the pre-reload snapshot (empty `NewItemIds`, as on a second
run with no intervening base-table change) leaves `recent_set_additions`
unchanged. -/
theorem C4_idempotent_when_no_new_items (db : DB) (cmds : List (LoadCmd × Bool))
    (now : Int) (f : FailureOracle) (db2 : DB)
    (hnew : ∀ s ∈ (loadData db cmds).sets, s.set_num ∈ setIds db.sets)
    (hok : run db cmds now f = Except.ok db2) :
    db2.recent_set_additions = db.recent_set_additions := by
  obtain ⟨-, -, rfl⟩ := rollup_ok_inv _ _ _ _ _ hok
  have hnil : newSets (loadData db cmds).sets (setIds db.sets) = [] := by
    dsimp only [newSets]
    rw [List.filter_eq_nil_iff]
    intro s hs
    simp [List.contains, List.elem_iff]
    exact hnew s hs
  have hnil2 : newSets (recentDelete (loadData db cmds) (setIds db.sets)).sets
      (setIds db.sets) = [] := hnil
  rw [(popularBlock_frame (recentInsert (recentDelete (loadData db cmds) (setIds db.sets))
      (setIds db.sets) now) now f).2.2.2]
  rw [recentInsert_nil _ _ now hnil2, recentDelete_nil _ _ hnil, loadData_recent]

/-- C4 witness: an empty load (no change to the base table) leaves the
four `recent_set_additions` rows of `dbA` unchanged. -/
theorem C4_witness :
    (okState (run dbA [] 0 noFail) dbA).recent_set_additions
      = dbA.recent_set_additions :=
  C4_idempotent_when_no_new_items dbA [] 0 noFail _ (by decide) rfl

theorem applyCmd_themes_mono {db : DB} {t : Nat} (c : LoadCmd) (h : t ∈ db.themes) :
    t ∈ (applyCmd db c).themes := by
  cases c with
  | addThemes ids => exact List.mem_append_left _ h
  | addSets rows =>
    dsimp only [applyCmd]
    split
    · exact h
    · exact h
  | other => exact h

theorem applyCmd_setIds_mono {db : DB} {x : String} (c : LoadCmd) (h : x ∈ setIds db.sets) :
    x ∈ setIds (applyCmd db c).sets := by
  cases c with
  | addThemes ids => exact h
  | addSets rows =>
    dsimp only [applyCmd]
    split
    · show x ∈ setIds (db.sets ++ rows)
      dsimp only [setIds]
      rw [List.map_append]
      exact List.mem_append_left _ h
    · exact h
  | other => exact h

theorem applyCmd_inv {db : DB} (c : LoadCmd)
    (h1 : recentIntegrity db) (h2 : setsFkOk db) :
    recentIntegrity (applyCmd db c) ∧ setsFkOk (applyCmd db c) := by
  constructor
  · intro r hr
    rw [applyCmd_recent] at hr
    obtain ⟨ha, hb⟩ := h1 r hr
    exact ⟨applyCmd_setIds_mono c ha, applyCmd_themes_mono c hb⟩
  · cases c with
    | addThemes ids =>
      intro s hs
      exact List.mem_append_left _ (h2 s hs)
    | addSets rows =>
      intro s hs
      dsimp only [applyCmd] at hs ⊢
      by_cases hall : rows.all (fun s => db.themes.contains s.theme_id) = true
      · rw [if_pos hall] at hs ⊢
        rcases List.mem_append.mp hs with h | h
        · exact h2 s h
        · have hc := List.all_eq_true.mp hall s h
          simpa [List.contains, List.elem_iff] using hc
      · rw [if_neg hall] at hs ⊢
        exact h2 s hs
    | other => exact h2

theorem loadData_inv (cmds : List (LoadCmd × Bool)) (db : DB)
    (h1 : recentIntegrity db) (h2 : setsFkOk db) :
    recentIntegrity (loadData db cmds) ∧ setsFkOk (loadData db cmds) := by
  induction cmds generalizing db with
  | nil => exact ⟨h1, h2⟩
  | cons c cs ih =>
    rw [loadData_cons]
    split
    · exact ih db h1 h2
    · obtain ⟨g1, g2⟩ := applyCmd_inv c.1 h1 h2
      exact ih _ g1 g2

theorem recentDelete_inv {db : DB} (ex : List String)
    (h1 : recentIntegrity db) (h2 : setsFkOk db) :
    recentIntegrity (recentDelete db ex) ∧ setsFkOk (recentDelete db ex) := by
  refine ⟨?_, h2⟩
  intro r hr
  exact h1 r (List.mem_filter.mp hr).1

theorem recentInsert_inv {db : DB} (ex : List String) (now : Int)
    (h1 : recentIntegrity db) (h2 : setsFkOk db) :
    recentIntegrity (recentInsert db ex now) ∧ setsFkOk (recentInsert db ex now) := by
  refine ⟨?_, h2⟩
  intro r hr
  rcases List.mem_append.mp hr with h | h
  · exact h1 r h
  · obtain ⟨s, hs, rfl⟩ := List.mem_map.mp h
    have hsel := (List.perm_insertionSort RecentLE _).mem_iff.mp hs
    have hnewmem : s ∈ newSets db.sets ex := (List.mem_filter.mp hsel).1
    have hmem : s ∈ db.sets := (List.mem_filter.mp hnewmem).1
    exact ⟨List.mem_map.mpr ⟨s, hmem, rfl⟩, h2 s hmem⟩

theorem popularBlock_inv {db : DB} (now : Int) (f : FailureOracle)
    (h1 : recentIntegrity db) (h2 : setsFkOk db) :
    recentIntegrity (popularBlock db now f) ∧ setsFkOk (popularBlock db now f) := by
  obtain ⟨ht, hs, -, hr⟩ := popularBlock_frame db now f
  constructor
  · intro r hmem
    rw [hr] at hmem
    obtain ⟨ha, hb⟩ := h1 r hmem
    rw [ht, hs]
    exact ⟨ha, hb⟩
  · intro s hmem
    rw [hs] at hmem
    rw [ht]
    exact h2 s hmem

/-- C9: both derived tables are created with `FOREIGN KEY` constraints to
the base tables (lines 88, 103-104), and the run preserves referential
integrity: starting from a state in which every `recent_set_additions`
row references an existing set and theme (and the `sets` table references
existing themes), any successful run ends in such a state — every row's
theme is in the current `themes` table and its identifier in the current
`sets` table. -/
theorem C9_referential_integrity (db : DB) (cmds : List (LoadCmd × Bool)) (now : Int)
    (f : FailureOracle) (db2 : DB)
    (h1 : recentIntegrity db) (h2 : setsFkOk db)
    (hok : run db cmds now f = Except.ok db2) :
    recentIntegrity db2 ∧ setsFkOk db2 := by
  obtain ⟨-, -, rfl⟩ := rollup_ok_inv _ _ _ _ _ hok
  obtain ⟨g1, g2⟩ := loadData_inv cmds db h1 h2
  obtain ⟨d1, d2⟩ := recentDelete_inv (setIds db.sets) g1 g2
  obtain ⟨i1, i2⟩ := recentInsert_inv (setIds db.sets) now d1 d2
  exact popularBlock_inv now f i1 i2

/-- C9 witness: the concrete run preserves referential integrity of
`dbA`. -/
theorem C9_witness :
    recentIntegrity (okState (run dbA cmdsA 0 noFail) dbA) ∧
    setsFkOk (okState (run dbA cmdsA 0 noFail) dbA) :=
  C9_referential_integrity dbA cmdsA 0 noFail _ (by decide) (by decide) rfl

/-- C5: the `popular_themes` recomputation appends, as one batch all
stamped `now`, the ranked aggregate list truncated to 5: its entries are
exactly aggregate (theme, sum-of-ownership-counts) pairs of themes that
reach the join, their number is `min 5` the number of such themes, and
any such theme left out of the batch has an aggregate count no larger
than that of every inserted row (ties broken in the
implementation-defined stable order of the ranking). -/
theorem C5_top5_snapshot (db : DB) (now : Int) :
    (popularInsertStep db now).popular_themes
        = db.popular_themes ++ (popularTop5 db).map
            (fun p => (⟨p.1, p.2, now⟩ : PopularRow)) ∧
    (popularTop5 db).length
        = min 5 (db.themes.filter (fun t => themeHasCollectionRow db t)).length ∧
    (∀ p ∈ popularTop5 db, p.2 = themeCollectionCount db p.1 ∧
        p.1 ∈ db.themes ∧ themeHasCollectionRow db p.1 = true) ∧
    (∀ t ∈ db.themes, themeHasCollectionRow db t = true →
      (∀ p ∈ popularTop5 db, p.1 ≠ t) →
        ∀ p ∈ popularTop5 db, themeCollectionCount db t ≤ p.2) := by
  refine ⟨rfl, ?_, ?_, ?_⟩
  · show ((popularRanking db).take 5).length = _
    rw [List.length_take, popularRanking,
      (List.perm_insertionSort PopLE _).length_eq, List.length_map]
  · intro p hp
    have hmem : p ∈ popularRanking db := List.take_subset 5 _ hp
    have hmem2 := (List.perm_insertionSort PopLE _).mem_iff.mp hmem
    obtain ⟨t, htf, rfl⟩ := List.mem_map.mp hmem2
    obtain ⟨htm, htr⟩ := List.mem_filter.mp htf
    exact ⟨rfl, htm, htr⟩
  · intro t htmem htrow hnot p hp
    have hmem : (t, themeCollectionCount db t) ∈ popularRanking db :=
      (List.perm_insertionSort PopLE _).mem_iff.mpr
        (List.mem_map.mpr ⟨t, List.mem_filter.mpr ⟨htmem, htrow⟩, rfl⟩)
    have hsplit : (t, themeCollectionCount db t) ∈
        (popularRanking db).take 5 ++ (popularRanking db).drop 5 := by
      rw [List.take_append_drop]
      exact hmem
    have hdropmem : (t, themeCollectionCount db t) ∈ (popularRanking db).drop 5 := by
      rcases List.mem_append.mp hsplit with h | h
      · exact absurd rfl (hnot _ h)
      · exact h
    have hsorted : List.Pairwise PopLE
        ((popularRanking db).take 5 ++ (popularRanking db).drop 5) := by
      rw [List.take_append_drop]
      exact List.sorted_insertionSort PopLE _
    exact (List.pairwise_append.mp hsorted).2.2 p hp _ hdropmem

/-- C5 witness: in the spec scenario (six themes with counts 100, 80, 80,
50, 40, 10), excluded theme 6's aggregate is no larger than the count of
the inserted top row. -/
theorem C5_witness :
    themeCollectionCount dbP 6 ≤ ((1 : Nat), (100 : Int)).2 :=
  (C5_top5_snapshot dbP 0).2.2.2 6 (by decide) (by decide) (by decide) (1, 100) (by decide)

end RebrickableUpdate
